import Mathlib

/-!
Verification development for the jira-flow-analyzer repository.

This file gives a shallow embedding, in Lean 4, of the parts of the
repository that the specification's claims are about:

* `data_analyzer.py` — status-category mapping (`_find_best_status_match`,
  `_discover_and_map_statuses`), lead times (`_calculate_lead_times`),
  per-issue status durations (`_calculate_issue_status_durations`),
  the cutoff date (`_get_timezone_aware_cutoff_date`) and the Gaussian
  summary (`_fit_gaussian_distribution`);
* `sprint_analyzer.py` — the Monte-Carlo probability ladder
  (`_calculate_monte_carlo_probability`), historical velocity
  (`_calculate_historical_velocity`) and the forecast
  (`_generate_forecast_with_dates`) with its helpers.

Modelling conventions, used throughout:

* Timestamps that the Python code has already parsed into comparable
  values are modelled as rationals (`ℚ`) on one common timeline, in days;
  subtracting two of them corresponds to
  `(b - a).total_seconds() / (24 * 3600)`.  Where timezone *awareness*
  itself matters (the cutoff-date claim) a timestamp is a value paired
  with an optional timezone tag.
* Python floats are modelled as exact rationals.  The scores and
  thresholds involved are ratios of small integers, where double
  arithmetic and exact arithmetic order identically.  So that concrete
  runs of the embedding are checkable by `decide`, rational arithmetic
  inside definitions uses the kernel-reducible forms `qadd`, `qsub`,
  `qmul`, `qdiv`, `qofNat`, `qofInt` below; each is proved equal to the
  corresponding field operation on `ℚ`.
* Python `None` and falsy guards are modelled with `Option` and with
  explicit emptiness tests (`s ≠ ""` for a truthy string).
* External, non-deterministic or numerically transcendental operations
  (scipy's `shapiro`, `np.random`, square roots, date parsing) are taken
  as function parameters of the embedding; the embedded control flow
  around them is translated from the source.
* Python dicts with a fixed key set become structures; the per-issue
  durations dict, whose key set is itself part of a claim, becomes an
  association list.
-/

set_option maxRecDepth 100000

/-! ### Kernel-reducible rational arithmetic -/

/-- Rational addition in a form the kernel evaluates (`Rat.add` itself is
not kernel-reducible); proved equal to `· + ·` in `qadd_eq`. -/
def qadd (a b : ℚ) : ℚ := mkRat (a.num * b.den + b.num * a.den) (a.den * b.den)

/-- Rational subtraction, kernel-reducible; equals `· - ·` by `qsub_eq`. -/
def qsub (a b : ℚ) : ℚ := mkRat (a.num * b.den - b.num * a.den) (a.den * b.den)

/-- Rational multiplication, kernel-reducible; equals `· * ·` by `qmul_eq`. -/
def qmul (a b : ℚ) : ℚ := mkRat (a.num * b.num) (a.den * b.den)

/-- Rational inverse, kernel-reducible; equals `·⁻¹` by `qinv_eq`. -/
def qinv (a : ℚ) : ℚ := Rat.divInt a.den a.num

/-- Rational division, kernel-reducible; equals `· / ·` by `qdiv_eq`.
Like `· / ·` (and unlike Python `/`, which raises), division by zero
gives 0; the embedding only uses it where the source guards the
denominator or where a separate checked division models the raise. -/
def qdiv (a b : ℚ) : ℚ := qmul a (qinv b)

/-- `ℕ` into `ℚ`, kernel-reducible; equals `Nat.cast` by `qofNat_eq`. -/
def qofNat (n : ℕ) : ℚ := mkRat n 1

/-- `ℤ` into `ℚ`, kernel-reducible; equals `Int.cast` by `qofInt_eq`. -/
def qofInt (n : ℤ) : ℚ := mkRat n 1

/-! ### String helpers (Python `str.lower`, `in`, `str.split`) -/

/-- Python `b.startswith(a)` on char lists. -/
def listStarts : List Char → List Char → Bool
  | [], _ => true
  | _ :: _, [] => false
  | a :: as, b :: bs => a == b && listStarts as bs

/-- Python's `a in b` for strings: `a` occurs contiguously in `b`.
`"" in b` is true, as in Python. -/
def listSub : List Char → List Char → Bool
  | a, [] => a.isEmpty
  | a, b :: bs => listStarts a (b :: bs) || listSub a bs

/-- Substring test on strings, Python `a in b`. -/
def strSub (a b : String) : Bool := listSub a.toList b.toList

/-- Python `s.lower()` (kernel-reducible, unlike `String.toLower`; the
status names involved are ASCII, where `Char.toLower` agrees with
Python). -/
def pyLower (s : String) : String := ⟨s.toList.map Char.toLower⟩

/-- Accumulator pass for `pyWords`: split on whitespace runs. -/
def wordsAux : List Char → List Char → List String
  | [], cur => if cur.isEmpty then [] else [⟨cur.reverse⟩]
  | c :: rest, cur =>
    if c.isWhitespace then
      if cur.isEmpty then wordsAux rest [] else ⟨cur.reverse⟩ :: wordsAux rest []
    else wordsAux rest (c :: cur)

/-- Python `s.split()` (no argument): split on whitespace runs, dropping
empty pieces. -/
def pyWords (s : String) : List String := wordsAux s.toList []

/-- Python `set(s.split())`, as a deduplicated list (first occurrence
kept); only its size and membership are ever used. -/
def pyWordSet (s : String) : List String := (pyWords s).dedup

/-! ### Status-category mappings (`DataAnalyzer.__init__`) -/

/-- A status-category map: category name to known literal status names.
Python's `self.status_mappings` dict, as an association list in the
dict's insertion order. -/
abbrev StatusMappings := List (String × List String)

/-- The seed dictionary from `DataAnalyzer.__init__` (data_analyzer.py
lines 29-40), in source order. -/
def seedStatusMappings : StatusMappings :=
  [("in_progress",
    ["In Progress", "In Development", "Development", "Doing", "Work In Progress",
     "Active", "In analysis", "Analysis in progress", "Implementation in progress",
     "Planning", "realization", "Executing"]),
   ("testing",
    ["Testing", "To Test", "In Testing", "Test", "QA", "Quality Assurance", "Fixed"]),
   ("validation",
    ["Validation", "To Validate", "In Review", "Review", "Validation", "Acceptance",
     "verify"]),
   ("done",
    ["Done", "Closed", "Resolved", "Complete", "Finished", "Completed", "Delivered",
     "Released", "Close", "PRD Deployed"]),
   ("waiting",
    ["Waiting", "New", "Open", "Accepted", "Information needed", "On Hold", "Blocked",
     "Pending", "Deployment requested", "Estimation", "To Deploy",
     "Waiting for Deployment", "Waiting for Release", "Waiting for Approval",
     "Waiting for Feedback", "Waiting for Review", "Waiting for Test",
     "Waiting for Validation", "Analysis - Wait Customer", "Need info",
     "Authorization", "GLOBAL BACKLOG", "ToDo"])]

/-! ### `_find_best_status_match` (data_analyzer.py lines 86-126) -/

/-- The `(category, known_status)` pairs of the nested
`for category, known_statuses in mappings.items(): for known_status in
known_statuses:` loops, flattened in iteration order. -/
def flatPairs (m : StatusMappings) : List (String × String) :=
  m.flatMap (fun p => p.2.map (fun k => (p.1, k)))

/-- One non-exact iteration of the matcher's inner loop body: the substring
check, then the word-overlap check, each overwriting `(best_score,
best_category)` only when its score is strictly greater. -/
def scoreUpdate (statusLower : String) (acc : ℚ × Option String)
    (pair : String × String) : ℚ × Option String :=
  let knownLower := pyLower pair.2
  let acc1 :=
    if strSub statusLower knownLower || strSub knownLower statusLower then
      let score : ℚ :=
        qdiv (qofNat (min statusLower.length knownLower.length))
          (qofNat (max statusLower.length knownLower.length))
      if score > acc.1 then (score, some pair.1) else acc
    else acc
  let statusWords := pyWordSet statusLower
  let knownWords := pyWordSet knownLower
  let overlap := statusWords.countP (fun w => knownWords.contains w)
  if overlap > 0 then
    let score : ℚ := qdiv (qofNat overlap) (qofNat (max statusWords.length knownWords.length))
    if score > acc1.1 then (score, some pair.1) else acc1
  else acc1

/-- The matcher's loop over the flattened pairs: an exact case-insensitive
match returns its category at once; otherwise the accumulator is updated
and, after the loop, the best category is returned only when its score
exceeds 0.3. -/
def findAux (statusLower : String) :
    List (String × String) → ℚ × Option String → Option String
  | [], acc => if acc.1 > mkRat 3 10 then acc.2 else none
  | p :: rest, acc =>
    if statusLower == pyLower p.2 then some p.1
    else findAux statusLower rest (scoreUpdate statusLower acc p)

/-- `DataAnalyzer._find_best_status_match`: best matching category for a
status name, or `none`. -/
def find_best_status_match (status : String) (m : StatusMappings) : Option String :=
  findAux (pyLower status) (flatPairs m) (0, none)

/-- The matcher as the spec words it (spec §4.1, steps 1-4): first an exact
case-insensitive match against any literal of any category; otherwise the
best substring/word-overlap score over all pairs, accepted only when
strictly greater than 0.3. -/
def spec_find_best_status_match (status : String) (m : StatusMappings) : Option String :=
  let sl := pyLower status
  let pairs := flatPairs m
  match pairs.find? (fun p => sl == pyLower p.2) with
  | some p => some p.1
  | none =>
    let acc := pairs.foldl (scoreUpdate sl) (0, none)
    if acc.1 > mkRat 3 10 then acc.2 else none

/-! ### Issue records (`_create_dataframe`, data_analyzer.py lines 244-293) -/

/-- A timestamp as pandas sees it for the cutoff-date logic: an instant
on a common timeline (in days) plus an optional timezone tag
(`none` = timezone-naive). -/
structure PTimestamp where
  val : ℚ
  tz : Option String
deriving DecidableEq, Repr

/-- One parsed status transition (`status_transitions` list entries built
in `_create_dataframe`): `from_status`, `to_status`, and the parsed
`changed` timestamp, modelled on the common timeline. -/
structure Transition where
  from_status : String
  to_status : String
  changed : ℚ
deriving DecidableEq, Repr

/-- One row of the DataFrame built by `_create_dataframe`, restricted to
the fields the analysed functions read.  `created` keeps its timezone
tag because the cutoff-date logic inspects it; `resolution_date` and the
transition timestamps are used only for differences, so they are plain
instants. -/
structure Issue where
  key : String
  current_status : String
  created : Option PTimestamp
  resolution_date : Option ℚ
  status_transitions : List Transition
deriving DecidableEq, Repr

/-! ### `_is_status_type` (data_analyzer.py lines 631-645) -/

/-- `DataAnalyzer._is_status_type`: does `status_name` belong to category
`status_type` of the map (unknown category gives `False`)? -/
def is_status_type (m : StatusMappings) (status_name status_type : String) : Bool :=
  match m.find? (fun p => p.1 == status_type) with
  | some p => p.2.contains status_name
  | none => false

/-! ### `_calculate_lead_times` (data_analyzer.py lines 319-368)

The source scans `issue['status_transitions']` in the order the list was
built (no sort in this function): the first transition in that order
whose `to_status` is in the in_progress category starts the clock, the
last one in that order whose `to_status` is in the done category stops
it, and only strictly positive differences are kept.  The timezone
normalisation in lines 351-355 rewrites both instants to UTC, which on
the common-timeline model is the identity. -/

/-- Lead time for one issue: sample produced, or `none`. -/
def issueLeadTime (m : StatusMappings) (i : Issue) : Option ℚ :=
  let in_progress_date :=
    (i.status_transitions.find? (fun t => is_status_type m t.to_status "in_progress")).map
      (fun t => t.changed)
  let done_date :=
    (i.status_transitions.reverse.find? (fun t => is_status_type m t.to_status "done")).map
      (fun t => t.changed)
  match in_progress_date, done_date with
  | some a, some b =>
    let lead_time := qsub b a
    if lead_time > 0 then some lead_time else none
  | _, _ => none

/-- `DataAnalyzer._calculate_lead_times`: the list of lead-time samples,
one per issue that yields one. -/
def calculate_lead_times (m : StatusMappings) (df : List Issue) : List ℚ :=
  df.filterMap (issueLeadTime m)

/-- Stable insertion of a transition into a `changed`-sorted list (ties
keep the earlier element first, as Python's stable `sorted`). -/
def insertByChanged (t : Transition) : List Transition → List Transition
  | [] => [t]
  | u :: rest =>
    if decide (t.changed ≤ u.changed) then t :: u :: rest
    else u :: insertByChanged t rest

/-- Python's `sorted(transitions, key=lambda x: x['changed'])` (stable). -/
def sortByChanged : List Transition → List Transition
  | [] => []
  | t :: rest => insertByChanged t (sortByChanged rest)

/-- Lead time for one issue as claim C1 words it: the scan runs over the
transitions sorted ascending by `changed`.  This differs from the source,
which does not sort in `_calculate_lead_times`. -/
def issueLeadTimeSortedClaim (m : StatusMappings) (i : Issue) : Option ℚ :=
  issueLeadTime m { i with status_transitions := sortByChanged i.status_transitions }

/-- Lead times over a frame, per claim C1's sorted-scan reading. -/
def calculate_lead_times_sorted_claim (m : StatusMappings) (df : List Issue) : List ℚ :=
  df.filterMap (issueLeadTimeSortedClaim m)

/-! ### `_discover_and_map_statuses` (data_analyzer.py lines 44-84) and the
per-run mapping update in `analyze_issues` (lines 144-146) -/

/-- The statuses collected into `all_statuses`: every truthy
`current_status`, `from_status` and `to_status` in the frame.  Python
collects them in a `set`, whose iteration order is unspecified; the
embedding fixes first-occurrence order, which the claims do not depend
on. -/
def collectStatuses (df : List Issue) : List String :=
  (df.flatMap (fun i =>
    (if i.current_status ≠ "" then [i.current_status] else []) ++
      i.status_transitions.flatMap (fun t =>
        (if t.from_status ≠ "" then [t.from_status] else []) ++
          (if t.to_status ≠ "" then [t.to_status] else [])))).dedup

/-- `any(status in mapping for mapping in enhanced_mappings.values())`. -/
def alreadyMapped (m : StatusMappings) (status : String) : Bool :=
  m.any (fun p => p.2.contains status)

/-- Append a discovered status to one category's list
(`enhanced_mappings[best_match].append(status)`). -/
def appendToCategory (m : StatusMappings) (category status : String) : StatusMappings :=
  m.map (fun p => if p.1 == category then (p.1, p.2 ++ [status]) else p)

/-- `DataAnalyzer._discover_and_map_statuses`: copy the current map, then
fuzzy-map every discovered status that is not already a known literal,
growing the working map as the loop runs. -/
def discover_and_map_statuses (m : StatusMappings) (df : List Issue) : StatusMappings :=
  (collectStatuses df).foldl
    (fun acc status =>
      if alreadyMapped acc status then acc
      else
        match find_best_status_match status acc with
        | some best => appendToCategory acc best status
        | none => acc)
    m

/-- The `self.status_mappings` update performed by `analyze_issues` (lines
144-146): on a non-empty frame the instance's map is replaced by the
discovery result; an empty frame leaves it unchanged. -/
def analyzeIssuesMappings (st : StatusMappings) (df : List Issue) : StatusMappings :=
  if df.isEmpty then st else discover_and_map_statuses st df

/-- The stored `self.status_mappings` after a sequence of `analyze_issues`
calls on one `DataAnalyzer` instance, starting from the constructor's
seed.  The map used at the start of call `k+1` is `stateAfterRuns` of the
first `k` frames. -/
def stateAfterRuns (dfs : List (List Issue)) : StatusMappings :=
  dfs.foldl analyzeIssuesMappings seedStatusMappings

/-- A one-issue frame whose only status name, "development work", is not a
seed literal but fuzzy-matches in_progress ("development" is a substring,
score 11/16 > 0.3). -/
def discoveryIssue : Issue :=
  { key := "K-1", current_status := "development work", created := none,
    resolution_date := none, status_transitions := [] }

/-! ### `_calculate_issue_status_durations` (data_analyzer.py lines 407-488)

The durations dict is initialised with exactly the keys `in_progress`,
`testing`, `waiting`, `validation` (in that order); the classification
loop `for status_type, status_names in self.status_mappings.items()`
adds an interval to the first category that is both *a key of the
durations dict* and contains the interval's status, so a status only in
the `done` list is never accumulated.  The dict is modelled as an
association list so that its key set is part of the embedded value.
Timezone normalisation (lines 445-448, 473-476) is the identity on the
common-timeline model. -/

/-- The durations dict initialiser (lines 417-422), in source key order. -/
def initDurations : List (String × ℚ) :=
  [("in_progress", 0), ("testing", 0), ("waiting", 0), ("validation", 0)]

/-- Python `status_type in durations`. -/
def durContainsKey (durs : List (String × ℚ)) (k : String) : Bool :=
  durs.any (fun p => p.1 == k)

/-- `durations[status_type] += duration` (keys are unique; every entry
with the key is updated). -/
def durAdd (durs : List (String × ℚ)) (k : String) (d : ℚ) : List (String × ℚ) :=
  durs.map (fun p => if p.1 == k then (p.1, qadd p.2 d) else p)

/-- The classification loop of lines 453-456 / 481-484: the first category
of the map that is a durations key and lists `cur`; `none` when the loop
falls through. -/
def pickCategory (durs : List (String × ℚ)) (m : StatusMappings) (cur : String) :
    Option String :=
  (m.find? (fun p => durContainsKey durs p.1 && p.2.contains cur)).map (fun p => p.1)

/-- Close one interval: the `if current_status and current_start` guard
(`cur ≠ ""`; timestamps in the model are always valid), then
classify-and-accumulate. -/
def applyInterval (m : StatusMappings) (durs : List (String × ℚ)) (cur : String)
    (d : ℚ) : List (String × ℚ) :=
  if cur ≠ "" then
    match pickCategory durs m cur with
    | some c => durAdd durs c d
    | none => durs
  else durs

/-- The walk over the sorted transitions after the first one has opened an
interval, closing each interval at the next transition's timestamp and
the final one at `close`. -/
def durWalk (m : StatusMappings) (close : ℚ) :
    List Transition → String → ℚ → List (String × ℚ) → List (String × ℚ)
  | [], cur, start, durs => applyInterval m durs cur (qsub close start)
  | t :: rest, cur, start, durs =>
    durWalk m close rest t.to_status t.changed (applyInterval m durs cur (qsub t.changed start))

/-- The final-interval close (line 469): resolution date when present,
else now. -/
def intervalClose (resolution : Option ℚ) (now : ℚ) : ℚ := resolution.getD now

/-- `DataAnalyzer._calculate_issue_status_durations` for one issue, given
the instant `now` used when there is no resolution date. -/
def calculate_issue_status_durations (m : StatusMappings) (now : ℚ) (i : Issue) :
    List (String × ℚ) :=
  match sortByChanged i.status_transitions with
  | [] => initDurations
  | t :: rest =>
    durWalk m (intervalClose i.resolution_date now) rest t.to_status t.changed initDurations

/-- The four counted category keys, in the durations dict's order. -/
def durKeys : List String := ["in_progress", "testing", "waiting", "validation"]

/-- The key set of a durations association list. -/
def keysOf (durs : List (String × ℚ)) : List String := durs.map Prod.fst

/-- Claim-side classification of one interval's status: the first category
of the map that is a counted key (`durKeys`) and lists the status; an
empty status name (falsy in Python, skipped by the guard) classifies to
nothing. -/
def countedCategoryOf (m : StatusMappings) (cur : String) : Option String :=
  if cur ≠ "" then
    (m.find? (fun p => durKeys.contains p.1 && p.2.contains cur)).map (fun p => p.1)
  else none

/-- Elapsed time of the intervals whose status classifies to no counted
category, walking exactly the intervals the source walks. -/
def unclWalk (m : StatusMappings) (close : ℚ) :
    List Transition → String → ℚ → ℚ
  | [], cur, start =>
    if countedCategoryOf m cur = none then qsub close start else 0
  | t :: rest, cur, start =>
    qadd (if countedCategoryOf m cur = none then qsub t.changed start else 0)
      (unclWalk m close rest t.to_status t.changed)

/-- Total unclassified duration of one issue (the complement of the four
counted totals). -/
def unclassifiedDuration (m : StatusMappings) (now : ℚ) (i : Issue) : ℚ :=
  match sortByChanged i.status_transitions with
  | [] => 0
  | t :: rest =>
    unclWalk m (intervalClose i.resolution_date now) rest t.to_status t.changed

/-- Sum of the values of a durations association list
(`sum(status_durations.values())`, the issue's total cycle time in
`_calculate_cycle_times` line 397). -/
def sumDurations (durs : List (String × ℚ)) : ℚ := durs.foldr (fun p s => qadd p.2 s) 0

/-! ### `_get_timezone_aware_cutoff_date` (data_analyzer.py lines 218-242)
and the batch filter (lines 151-153) -/

/-- `DataAnalyzer._get_timezone_aware_cutoff_date`.  `nowMinus tag` stands
for `pd.Timestamp.now(tz) - pd.DateOffset(months=months_back)` evaluated
with the given timezone tag (`none` = the naive `pd.Timestamp.now()`);
`created` is the frame's `created` column.  On an empty frame (or a
frame without the column, which `_create_dataframe` only produces when
the frame is empty) the source uses UTC; when the first valid created
date is missing or naive it uses the *naive* now; otherwise it reuses
that date's timezone. -/
def get_timezone_aware_cutoff_date (nowMinus : Option String → ℚ)
    (created : List (Option PTimestamp)) : PTimestamp :=
  if created.isEmpty then { val := nowMinus (some "UTC"), tz := some "UTC" }
  else
    match (created.filterMap id).head? with
    | none => { val := nowMinus none, tz := none }
    | some first_date =>
      match first_date.tz with
      | none => { val := nowMinus none, tz := none }
      | some z => { val := nowMinus (some z), tz := some z }

/-- The cutoff as claim C5 words it: same timezone-awareness as the first
valid created date, with UTC whenever the dataset has no timezone
info. -/
def cutoff_date_claim (nowMinus : Option String → ℚ)
    (created : List (Option PTimestamp)) : PTimestamp :=
  match (created.filterMap id).head? with
  | some first_date =>
    match first_date.tz with
    | some z => { val := nowMinus (some z), tz := some z }
    | none => { val := nowMinus (some "UTC"), tz := some "UTC" }
  | none => { val := nowMinus (some "UTC"), tz := some "UTC" }

/-- The batch filter `df[df['created'] >= cutoff_date]` (line 153): rows
with a missing created date compare as NaT, i.e. are dropped. -/
def filterByCutoff (df : List Issue) (cutoff : PTimestamp) : List Issue :=
  df.filter (fun i =>
    match i.created with
    | some t => decide (cutoff.val ≤ t.val)
    | none => false)

/-! ### `_fit_gaussian_distribution` (data_analyzer.py lines 547-592) -/

/-- Stable insertion into an ascending-sorted rational list. -/
def insertQ (x : ℚ) : List ℚ → List ℚ
  | [] => [x]
  | y :: rest => if decide (x ≤ y) then x :: y :: rest else y :: insertQ x rest

/-- Ascending sort of a rational list (as numpy sorts for the median). -/
def sortQ : List ℚ → List ℚ
  | [] => []
  | x :: rest => insertQ x (sortQ rest)

/-- Sum of a rational list, kernel-reducible. -/
def qsum (l : List ℚ) : ℚ := l.foldr qadd 0

/-- `np.mean` of a non-empty list. -/
def meanQ (l : List ℚ) : ℚ := qdiv (qsum l) (qofNat l.length)

/-- Population variance `np.std(...)**2`: mean squared deviation. -/
def varianceQ (l : List ℚ) : ℚ :=
  qdiv (qsum (l.map (fun x => qmul (qsub x (meanQ l)) (qsub x (meanQ l)))))
    (qofNat l.length)

/-- `np.median`: middle of the sorted list, or the mean of the two middle
elements for even length. -/
def medianQ (l : List ℚ) : ℚ :=
  let s := sortQ l
  let n := l.length
  if n % 2 = 1 then s.getD (n / 2) 0
  else qdiv (qadd (s.getD (n / 2 - 1) 0) (s.getD (n / 2) 0)) (qofNat 2)

/-- The dict returned by `_fit_gaussian_distribution` for non-empty data.
`distribution_params` is flattened into `loc`/`scale`.  `is_normal` is
`Option Bool`: Python `True`/`False`/`None`. -/
structure FitResult where
  mean : ℚ
  std : ℚ
  median : ℚ
  count : ℕ
  min : ℚ
  max : ℚ
  loc : ℚ
  scale : ℚ
  normality_test_p_value : Option ℚ
  is_normal : Option Bool
deriving DecidableEq, Repr

/-- `DataAnalyzer._fit_gaussian_distribution`.  `sqrtQ` stands for the real
square root inside `np.std` / `stats.norm.fit`'s scale (its value is
irrelevant to every claim); `shapiro` stands for
`stats.shapiro(data)[1]`, with `none` for the exception path.  Empty
data returns `none`, the empty dict `{}` of line 558 — a dict with *no*
entries, in particular no `count`.  `is_normal` is
`p_value > 0.05 if p_value else None`: Python's truthiness makes it
`None` when the p-value is absent *or equal to 0.0*, and `False` (not
`None`) when `0 < p ≤ 0.05`. -/
def fit_gaussian_distribution (sqrtQ : ℚ → ℚ) (shapiro : List ℚ → Option ℚ)
    (data : List ℚ) : Option FitResult :=
  if data.isEmpty then none
  else
    let mean := meanQ data
    let std := sqrtQ (varianceQ data)
    let sorted := sortQ data
    let p_value := if 3 < data.length then shapiro data else none
    some
      { mean := mean
        std := std
        median := medianQ data
        count := data.length
        min := sorted.headD 0
        max := sorted.getLastD 0
        loc := mean
        scale := std
        normality_test_p_value := p_value
        is_normal :=
          match p_value with
          | some v => if v ≠ 0 then some (decide (v > mkRat 1 20)) else none
          | none => none }

/-! ### `_calculate_monte_carlo_probability` (sprint_analyzer.py lines
749-783) -/

/-- The percentile dict produced by `_run_monte_carlo_simulation`. -/
structure Percentiles where
  p10 : ℚ
  p25 : ℚ
  p50 : ℚ
  p75 : ℚ
  p90 : ℚ
deriving DecidableEq, Repr

/-- The dict returned by `_run_monte_carlo_simulation` for a non-empty
sample population (the simulation itself is np.random resampling and is
passed in as a parameter where needed). -/
structure MonteCarloResult where
  percentiles : Percentiles
  mcMean : ℚ
  mcStd : ℚ
deriving DecidableEq, Repr

/-- `SprintAnalyzer._calculate_monte_carlo_probability`.  The argument
models `monte_carlo_data.get('percentiles', {})` with `none` for a
missing or empty percentile dict (an empty `monte_carlo_data` included);
that case returns 50.0 *before* the `remaining_stories == 0` check, so a
zero remaining count yields 100 only when percentiles exist. -/
def calculate_monte_carlo_probability (remaining_stories : ℤ)
    (percentiles : Option Percentiles) (multiplier : ℚ) : ℚ :=
  match percentiles with
  | none => 50
  | some ps =>
    let p90_velocity := qmul ps.p90 multiplier
    let p50_velocity := qmul ps.p50 multiplier
    let p10_velocity := qmul ps.p10 multiplier
    if remaining_stories = 0 then 100
    else if p90_velocity ≥ qofInt remaining_stories then 90
    else if p50_velocity ≥ qofInt remaining_stories then 70
    else if p10_velocity ≥ qofInt remaining_stories then 30
    else 10

/-! ### `_calculate_historical_velocity` (sprint_analyzer.py lines 537-588)
and `_group_issues_by_week` (lines 590-620) -/

/-- A historical issue as the velocity path reads it. -/
structure HIssue where
  status : String
  resolution_date : Option String
deriving DecidableEq, Repr

/-- Bump a week's count in the insertion-ordered `defaultdict(int)`. -/
def bumpWeek (acc : List (String × ℕ)) (w : String) : List (String × ℕ) :=
  if acc.any (fun p => p.1 == w) then
    acc.map (fun p => if p.1 == w then (p.1, p.2 + 1) else p)
  else acc ++ [(w, 1)]

/-- `SprintAnalyzer._group_issues_by_week`: issues with a parseable
resolution date are bucketed by ISO (year, week) key; `weekKey`
stands for the `parser.parse` + `isocalendar` key computation, with
`none` for the parse-failure path.  The result is the list of per-week
counts. -/
def group_issues_by_week (weekKey : String → Option String) (issues : List HIssue) :
    List ℕ :=
  (issues.foldl
    (fun acc i =>
      match i.resolution_date with
      | none => acc
      | some s =>
        match weekKey s with
        | none => acc
        | some w => bumpWeek acc w)
    []).map (fun p => p.2)

/-- The dict returned by `_calculate_historical_velocity` (and by the
fetch-failure path, which lacks some keys — hence the `Option` fields
read back through `.get` defaults). -/
structure VelocityData where
  average_velocity : ℚ
  velocity_variance : ℚ
  completion_rate : ℚ
  total_historical_issues : ℕ
  monte_carlo_forecast : Option MonteCarloResult
  estimate_accuracy : Option ℚ
  weekly_story_counts : List ℕ
deriving DecidableEq, Repr

/-- Mean of a week-count list as `np.mean` sees it. -/
def meanN (l : List ℕ) : ℚ := meanQ (l.map qofNat)

/-- Population variance of a week-count list (`np.var`). -/
def varN (l : List ℕ) : ℚ := varianceQ (l.map qofNat)

/-- `SprintAnalyzer._calculate_historical_velocity`.  `simulate` stands for
`_run_monte_carlo_simulation` on a non-empty population (np.random
resampling); `completion_statuses` is the configured list.  Zero
historical issues, or no weekly buckets, short-circuit to the all-zero
dict with an empty Monte-Carlo forecast. -/
def calculate_historical_velocity (weekKey : String → Option String)
    (simulate : List ℕ → MonteCarloResult) (completion_statuses : List String)
    (issues : List HIssue) : VelocityData :=
  if issues.isEmpty then
    { average_velocity := 0, velocity_variance := 0, completion_rate := 0,
      total_historical_issues := 0, monte_carlo_forecast := none,
      estimate_accuracy := none, weekly_story_counts := [] }
  else
    let weekly := group_issues_by_week weekKey issues
    if weekly.isEmpty then
      { average_velocity := 0, velocity_variance := 0, completion_rate := 0,
        total_historical_issues := issues.length, monte_carlo_forecast := none,
        estimate_accuracy := none, weekly_story_counts := [] }
    else
      let completed_statuses := completion_statuses.map pyLower
      let completed_issues :=
        issues.filter (fun i => completed_statuses.contains (pyLower i.status))
      { average_velocity := meanN weekly
        velocity_variance := varN weekly
        completion_rate := qdiv (qofNat completed_issues.length) (qofNat issues.length)
        total_historical_issues := issues.length
        monte_carlo_forecast := some (simulate weekly)
        estimate_accuracy := some 1
        weekly_story_counts := weekly }

/-! ### `_generate_forecast_with_dates` (sprint_analyzer.py lines 657-747)
and its helpers -/

/-- Python `int(x)` on a float: truncation toward zero. -/
def ratTrunc (q : ℚ) : ℤ := q.num.tdiv q.den

/-- Python division, which raises `ZeroDivisionError` on a zero
denominator; modelled in `Except`. -/
def pydivE (a b : ℚ) : Except String ℚ :=
  if b = 0 then Except.error "ZeroDivisionError" else Except.ok (qdiv a b)

/-- A sprint issue as `_analyze_sprint_workload`'s `issues_detail` carries
it (the `.get(..., 0)` defaults make the hour fields total). -/
structure WorkIssue where
  key : String
  status : String
  original_estimate_hours : ℚ
  remaining_estimate_hours : ℚ
  time_spent_hours : ℚ
deriving DecidableEq, Repr

/-- The workload dict produced by `_analyze_sprint_workload`, restricted to
the fields the forecast path reads. -/
structure Workload where
  total_issues : ℕ
  total_original_estimate : ℚ
  total_remaining_estimate : ℚ
  total_time_spent : ℚ
  overall_progress : ℚ
  unestimated_issues : ℕ
  issues_detail : List WorkIssue
deriving DecidableEq, Repr

/-- `SprintAnalyzer._calculate_risk_level` (lines 841-884): the four-factor
scorecard. -/
def calculate_risk_level (remaining_hours remaining_days completion_probability : ℚ)
    (workload : Workload) : String :=
  let risk1 : ℕ := if remaining_days > 10 then 2 else if remaining_days > 5 then 1 else 0
  let risk2 : ℕ :=
    if completion_probability < 60 then 2
    else if completion_probability < 80 then 1 else 0
  let progress := workload.overall_progress
  let risk3 : ℕ := if progress < 30 ∧ remaining_hours > 100 then 1 else 0
  let unestimated_ratio :=
    qdiv (qofNat workload.unestimated_issues) (qofNat (max workload.total_issues 1))
  let risk4 : ℕ := if unestimated_ratio > mkRat 3 10 then 1 else 0
  let risk_factors := risk1 + risk2 + risk3 + risk4
  if risk_factors ≥ 3 then "HIGH"
  else if risk_factors ≥ 1 then "MEDIUM"
  else "LOW"

/-- `SprintAnalyzer._generate_recommendations` (lines 886-919).  `fmt1`
stands for Python's `f"{x:.1f}"` float formatting (presentation only). -/
def generate_recommendations (fmt1 : ℚ → String) (workload : Workload)
    (historical : VelocityData) (weeks_needed : ℚ) : List String :=
  let remaining_days := qdiv workload.total_remaining_estimate 8
  let time_spent := workload.total_time_spent
  let total_estimated := workload.total_original_estimate
  let r1 : List String :=
    if time_spent > total_estimated ∧ total_estimated > 0 then
      ["🔴 Spent time exceeds planned estimates - discuss in next retrospective why estimates were exceeded"]
    else []
  let r2 : List String :=
    if workload.unestimated_issues > 0 then
      ["📝 " ++ toString workload.unestimated_issues ++
        " issues lack time estimates - prioritize estimation"]
    else []
  let r3 : List String :=
    if remaining_days > 10 then
      ["⚠️ High workload remaining (" ++ fmt1 remaining_days ++
        " days) - consider scope reduction"]
    else if weeks_needed > 2 then
      ["⚠️ Sprint appears overcommitted - consider scope reduction"]
    else []
  let r4 : List String :=
    if historical.estimate_accuracy.getD 1 < mkRat 8 10 then
      ["📊 Historical estimates tend to be optimistic - add buffer time"]
    else []
  let r5 : List String :=
    if workload.overall_progress < 20 ∧ remaining_days > 5 then
      ["🚀 Sprint just started with high workload - monitor progress closely"]
    else []
  let r6 : List String :=
    if workload.overall_progress < 50 ∧ remaining_days > 8 then
      ["📈 Consider daily standups to track progress more closely"]
    else []
  let recommendations := r1 ++ r2 ++ r3 ++ r4 ++ r5 ++ r6
  if recommendations.isEmpty then
    ["✅ Sprint appears well-balanced based on current analysis"]
  else recommendations

/-- One scenario entry of `_generate_scenario_analysis`. -/
structure Scenario where
  velocity : ℚ
  confidence : String
  stories_at_risk : ℤ
  description : String
  recommendation : String
deriving DecidableEq, Repr

/-- Build one scenario entry (shared shape of the p90/p50/p10 blocks). -/
def mkScenario (remaining_stories : ℤ) (v : ℚ) (confidence caseName tail : String) :
    Scenario :=
  let at_risk := max 0 (remaining_stories - ratTrunc v)
  { velocity := v
    confidence := confidence
    stories_at_risk := at_risk
    description := caseName ++ ": Team completes " ++ toString (ratTrunc v) ++
      " stories/week"
    recommendation :=
      if at_risk > 0 then
        "Remove " ++ toString at_risk ++ " lowest priority stories " ++ tail
      else "All stories likely to be completed" }

/-- `SprintAnalyzer._generate_scenario_analysis` (lines 785-839): `none`
models the empty dict returned when there is no Monte-Carlo data or
nothing remains; otherwise up to three keyed entries. -/
def generate_scenario_analysis (remaining_stories : ℤ)
    (monte : Option MonteCarloResult) (_workload : Workload) :
    Option (List (String × Scenario)) :=
  match monte with
  | none => none
  | some m =>
    if remaining_stories = 0 then none
    else
      let s90 : List (String × Scenario) :=
        if m.percentiles.p90 > 0 then
          [("p90", mkScenario remaining_stories m.percentiles.p90 "90%" "Best case"
              "for 90% confidence")]
        else []
      let s50 : List (String × Scenario) :=
        if m.percentiles.p50 > 0 then
          [("p50", mkScenario remaining_stories m.percentiles.p50 "50%" "Typical case"
              "for 50% confidence")]
        else []
      let s10 : List (String × Scenario) :=
        if m.percentiles.p10 > 0 then
          [("p10", mkScenario remaining_stories m.percentiles.p10 "10%" "Worst case"
              "for conservative planning")]
        else []
      some (s90 ++ s50 ++ s10)

/-- Sprint details as the date forecast reads them. -/
structure SprintDetails where
  end_date : Option String
deriving DecidableEq, Repr

/-- The dict returned by `_calculate_date_forecast`; dates are modelled as
day ordinals (`ℤ`). -/
structure DateForecast where
  planned_end_date : Option ℤ
  estimated_completion_date : ℤ
  days_difference : ℤ
  will_finish_on_time : Bool
  missing_days : ℤ
  date_risk_level : String
deriving DecidableEq, Repr

/-- `SprintAnalyzer._calculate_date_forecast` (lines 1077-1150).  `today`
is `date.today()` as a day ordinal and `parseDate` stands for
`parser.parse(...).date()`, `none` marking the raise that the enclosing
`try` turns into the defaults-only fallback result. -/
def calculate_date_forecast (today : ℤ) (parseDate : String → Option ℤ)
    (estimated_days_needed : ℚ) (sprint_details : SprintDetails) : DateForecast :=
  let estimated_completion := today + ratTrunc estimated_days_needed
  match sprint_details.end_date with
  | some s =>
    match parseDate s with
    | some planned_end =>
      let days_diff := estimated_completion - planned_end
      { planned_end_date := some planned_end
        estimated_completion_date := estimated_completion
        days_difference := days_diff
        will_finish_on_time := decide (days_diff ≤ 0)
        missing_days := max 0 days_diff
        date_risk_level :=
          if days_diff ≤ 0 then "LOW" else if days_diff ≤ 3 then "MEDIUM" else "HIGH" }
    | none =>
      { planned_end_date := none, estimated_completion_date := estimated_completion,
        days_difference := 0, will_finish_on_time := true, missing_days := 0,
        date_risk_level := "LOW" }
  | none =>
    { planned_end_date := none, estimated_completion_date := estimated_completion,
      days_difference := 0, will_finish_on_time := true, missing_days := 0,
      date_risk_level := "MEDIUM" }

/-- The forecast dict returned by `_generate_forecast_with_dates`. -/
structure Forecast where
  estimated_weeks_needed : ℚ
  estimated_days_needed : ℚ
  remaining_days : ℚ
  adjusted_hours_estimate : ℚ
  probability_of_completion : ℚ
  risk_level : String
  recommendations : List String
  monte_carlo_scenarios : Option (List (String × Scenario))
  remaining_stories : ℤ
  date_forecast : DateForecast
deriving DecidableEq, Repr

/-- `SprintAnalyzer._generate_forecast_with_dates` (lines 657-747).
`team_size` and `hours_per_day` are the configured capacity; divisions
are checked (`Except`) exactly where Python would raise
`ZeroDivisionError`.  The `completion_rate` read on line 688 is unused
by the source afterwards and is not modelled. -/
def generate_forecast_with_dates (team_size hours_per_day : ℚ)
    (completion_statuses : List String) (fmt1 : ℚ → String) (today : ℤ)
    (parseDate : String → Option ℤ) (workload : Workload)
    (historical : VelocityData) (sprint_details : SprintDetails) :
    Except String Forecast := do
  let remaining_hours := workload.total_remaining_estimate
  let average_velocity := historical.average_velocity
  let estimate_accuracy := historical.estimate_accuracy.getD 1
  let remaining_days ← pydivE remaining_hours 8
  let completed_lower := completion_statuses.map pyLower
  let completed_count :=
    (workload.issues_detail.filter (fun i => completed_lower.contains (pyLower i.status))).length
  let remaining_stories : ℤ := (workload.total_issues : ℤ) - completed_count
  let monte_carlo_data := historical.monte_carlo_forecast
  let main ←
    if average_velocity > 0 ∧ monte_carlo_data.isSome then do
      let mc_velocity_base :=
        (monte_carlo_data.map (fun m => m.percentiles.p50)).getD average_velocity
      let mc_velocity := qmul mc_velocity_base 3
      let estimated_weeks_needed ←
        if mc_velocity > 0 then pydivE (qofInt remaining_stories) mc_velocity
        else pydivE remaining_hours average_velocity
      let estimated_days_needed := qmul estimated_weeks_needed 5
      let adjusted_hours := qmul remaining_hours estimate_accuracy
      let probability_of_completion :=
        calculate_monte_carlo_probability remaining_stories
          (monte_carlo_data.map (fun m => m.percentiles)) 2
      pure (estimated_weeks_needed, estimated_days_needed, adjusted_hours,
        probability_of_completion)
    else do
      let team_capacity_per_day := qmul team_size hours_per_day
      let team_capacity_per_week := qmul team_capacity_per_day 5
      let estimated_weeks_needed ← pydivE remaining_hours team_capacity_per_week
      let estimated_days_needed ← pydivE remaining_hours team_capacity_per_day
      pure (estimated_weeks_needed, estimated_days_needed, remaining_hours, (70 : ℚ))
  let risk_level :=
    calculate_risk_level remaining_hours remaining_days main.2.2.2 workload
  let recommendations := generate_recommendations fmt1 workload historical main.1
  let scenario_analysis :=
    generate_scenario_analysis remaining_stories monte_carlo_data workload
  let date_forecast := calculate_date_forecast today parseDate main.2.1 sprint_details
  pure
    { estimated_weeks_needed := main.1
      estimated_days_needed := main.2.1
      remaining_days := remaining_days
      adjusted_hours_estimate := main.2.2.1
      probability_of_completion := main.2.2.2
      risk_level := risk_level
      recommendations := recommendations
      monte_carlo_scenarios := scenario_analysis
      remaining_stories := remaining_stories
      date_forecast := date_forecast }

/-- Lead time for one issue as the source actually scans (the amended
C1): over the transitions in stored order, start = first whose
`to_status` is in_progress, end = last whose `to_status` is done, the
sample kept only when both exist and end − start is strictly
positive. -/
def issueLeadTimeStoredClaim (m : StatusMappings) (i : Issue) : Option ℚ :=
  let starts :=
    i.status_transitions.filter (fun t => is_status_type m t.to_status "in_progress")
  let dones :=
    i.status_transitions.filter (fun t => is_status_type m t.to_status "done")
  match (starts.head?).map (fun t => t.changed),
      (dones.reverse.head?).map (fun t => t.changed) with
  | some a, some b => if b - a > 0 then some (b - a) else none
  | _, _ => none

/-- An issue whose transition list is not sorted by `changed`: an
"In Progress" entry at time 5 is stored before one at time 1, with a
"Done" entry at time 10. -/
def c1Issue : Issue :=
  { key := "C1", current_status := "Done", created := none, resolution_date := none,
    status_transitions :=
      [{ from_status := "", to_status := "In Progress", changed := 5 },
       { from_status := "", to_status := "In Progress", changed := 1 },
       { from_status := "", to_status := "Done", changed := 10 }] }

/-- A concrete issue for witnesses: one counted interval (In Progress,
days 0-2), then an interval in an unknown status ("Banana") closed by the
resolution date at day 5. -/
def c4Issue : Issue :=
  { key := "C4", current_status := "Banana", created := none, resolution_date := some 5,
    status_transitions :=
      [{ from_status := "", to_status := "In Progress", changed := 0 },
       { from_status := "", to_status := "Banana", changed := 2 }] }

/-- A concrete sprint workload for the C9 witness. -/
def c9Workload : Workload :=
  { total_issues := 10, total_original_estimate := 100, total_remaining_estimate := 80,
    total_time_spent := 20, overall_progress := 20, unestimated_issues := 2,
    issues_detail := [] }

/-- A stub Monte-Carlo simulation for the C9 witness (never reached on an
empty history). -/
def c9Simulate : List ℕ → MonteCarloResult := fun _ =>
  { percentiles := { p10 := 0, p25 := 0, p50 := 0, p75 := 0, p90 := 0 },
    mcMean := 0, mcStd := 0 }

/-! ## Helper lemmas -/

theorem qadd_eq (a b : ℚ) : qadd a b = a + b := by rw [qadd, Rat.add_def']

theorem qsub_eq (a b : ℚ) : qsub a b = a - b := by rw [qsub, Rat.sub_def']

theorem qmul_eq (a b : ℚ) : qmul a b = a * b := by
  rw [qmul, Rat.mul_def, Rat.normalize_eq_mkRat]

theorem qinv_eq (a : ℚ) : qinv a = a⁻¹ := by rw [qinv, ← Rat.inv_def]; rfl

theorem qdiv_eq (a b : ℚ) : qdiv a b = a / b := by
  rw [qdiv, qmul_eq, qinv_eq, div_eq_mul_inv]

theorem qofNat_eq (n : ℕ) : qofNat n = (n : ℚ) := by
  rw [qofNat, Rat.mkRat_one]; simp [Rat.intCast_eq_divInt]

theorem qofInt_eq (n : ℤ) : qofInt n = ((n : ℤ) : ℚ) := by
  rw [qofInt, Rat.mkRat_one, Rat.intCast_eq_divInt]

theorem find?_eq_head?_filter {α : Type} (p : α → Bool) (l : List α) :
    l.find? p = (l.filter p).head? := by
  induction l with
  | nil => rfl
  | cons a t ih =>
    cases h : p a
    · rw [List.find?_cons_of_neg _ (by simp [h]), List.filter_cons_of_neg (by simp [h]), ih]
    · rw [List.find?_cons_of_pos _ h, List.filter_cons_of_pos h, List.head?_cons]

theorem find?_reverse_eq {α : Type} (p : α → Bool) (l : List α) :
    l.reverse.find? p = ((l.filter p).reverse).head? := by
  rw [find?_eq_head?_filter, List.filter_reverse]

theorem find?_congr_pred {α : Type} (p q : α → Bool) (l : List α)
    (h : ∀ a, p a = q a) : l.find? p = l.find? q := by
  induction l with
  | nil => rfl
  | cons a t ih =>
    cases hb : q a
    · rw [List.find?_cons_of_neg _ (by simp [h a, hb]),
        List.find?_cons_of_neg _ (by simp [hb]), ih]
    · rw [List.find?_cons_of_pos _ (by rw [h a]; exact hb), List.find?_cons_of_pos _ hb]

theorem keysOf_durAdd (durs : List (String × ℚ)) (k : String) (d : ℚ) :
    keysOf (durAdd durs k d) = keysOf durs := by
  induction durs with
  | nil => rfl
  | cons p rest ih =>
    have hstep : durAdd (p :: rest) k d
        = (if p.1 == k then (p.1, qadd p.2 d) else p) :: durAdd rest k d := rfl
    rw [hstep]
    show _ :: keysOf (durAdd rest k d) = _ :: keysOf rest
    refine congrArg₂ List.cons ?_ ih
    split <;> rfl

theorem keysOf_applyInterval (m : StatusMappings) (durs : List (String × ℚ))
    (cur : String) (d : ℚ) :
    keysOf (applyInterval m durs cur d) = keysOf durs := by
  unfold applyInterval
  split
  · split
    · exact keysOf_durAdd _ _ _
    · rfl
  · rfl

theorem keysOf_durWalk (m : StatusMappings) (close : ℚ) (ts : List Transition)
    (cur : String) (start : ℚ) (durs : List (String × ℚ)) :
    keysOf (durWalk m close ts cur start durs) = keysOf durs := by
  induction ts generalizing cur start durs with
  | nil => exact keysOf_applyInterval _ _ _ _
  | cons t rest ih => rw [durWalk, ih, keysOf_applyInterval]

theorem durContainsKey_eq_keys (durs : List (String × ℚ)) (c : String) :
    durContainsKey durs c = (keysOf durs).contains c := by
  induction durs with
  | nil => rfl
  | cons p rest ih =>
    have h1 : durContainsKey (p :: rest) c = ((p.1 == c) || durContainsKey rest c) := by
      rw [durContainsKey, List.any_cons]; rfl
    have h2 : keysOf (p :: rest) = p.1 :: keysOf rest := rfl
    have hcomm : (p.1 == c) = (c == p.1) := by
      by_cases hq : p.1 = c
      · simp [hq]
      · simp [hq, Ne.symm hq]
    rw [h1, h2, List.contains_cons, ih, hcomm]

theorem durAdd_of_not_mem (durs : List (String × ℚ)) (k : String) (d : ℚ)
    (h : k ∉ keysOf durs) : durAdd durs k d = durs := by
  induction durs with
  | nil => rfl
  | cons p rest ih =>
    simp only [keysOf, List.map_cons, List.mem_cons, not_or] at h
    simp only [durAdd, List.map_cons]
    rw [if_neg (by simp [Ne.symm h.1])]
    have := ih (by simpa [keysOf] using h.2)
    simpa [durAdd] using this

theorem sumDurations_cons (p : String × ℚ) (rest : List (String × ℚ)) :
    sumDurations (p :: rest) = p.2 + sumDurations rest := by
  rw [sumDurations, List.foldr_cons, qadd_eq, ← sumDurations]

theorem sumDurations_durAdd (durs : List (String × ℚ)) (k : String) (d : ℚ)
    (hmem : k ∈ keysOf durs) (hnd : (keysOf durs).Nodup) :
    sumDurations (durAdd durs k d) = sumDurations durs + d := by
  induction durs with
  | nil => simp [keysOf] at hmem
  | cons p rest ih =>
    have hstep : durAdd (p :: rest) k d
        = (if p.1 == k then (p.1, qadd p.2 d) else p) :: durAdd rest k d := rfl
    have hnd' : p.1 ∉ keysOf rest ∧ (keysOf rest).Nodup := List.nodup_cons.mp hnd
    have hmem' : k = p.1 ∨ k ∈ keysOf rest := List.mem_cons.mp hmem
    by_cases h : p.1 = k
    · have hb : (p.1 == k) = true := by simp [h]
      have hnotin : k ∉ keysOf rest := by rw [← h]; exact hnd'.1
      rw [hstep, if_pos hb, durAdd_of_not_mem rest k d hnotin,
        sumDurations_cons, sumDurations_cons, qadd_eq]
      ring
    · have hb : ¬ ((p.1 == k) = true) := by simp [h]
      have hk : k ∈ keysOf rest := by
        rcases hmem' with h1 | h2
        · exact absurd h1.symm h
        · exact h2
      rw [hstep, if_neg hb, sumDurations_cons, sumDurations_cons, ih hk hnd'.2]
      ring

theorem contains_mem {l : List String} {a : String} (h : l.contains a = true) :
    a ∈ l := by
  induction l with
  | nil => simp at h
  | cons b t ih =>
    rw [List.contains_cons, Bool.or_eq_true] at h
    rcases h with h1 | h2
    · exact (by simpa using h1 : a = b) ▸ List.mem_cons_self a t
    · exact List.mem_cons_of_mem b (ih h2)

theorem pickCategory_keys (m : StatusMappings) (cur : String)
    (durs : List (String × ℚ)) (h : keysOf durs = durKeys) :
    pickCategory durs m cur
      = (m.find? (fun p => durKeys.contains p.1 && p.2.contains cur)).map (fun p => p.1) := by
  unfold pickCategory
  refine congrArg _ ?_
  apply find?_congr_pred
  intro p
  rw [durContainsKey_eq_keys, h]

theorem interval_step (m : StatusMappings) (durs : List (String × ℚ)) (cur : String)
    (d : ℚ) (h : keysOf durs = durKeys) :
    sumDurations (applyInterval m durs cur d)
        + (if countedCategoryOf m cur = none then d else 0)
      = sumDurations durs + d := by
  have hnd : (keysOf durs).Nodup := by rw [h]; decide
  unfold applyInterval countedCategoryOf
  by_cases hcur : cur = ""
  · subst hcur
    rfl
  · rw [if_pos hcur, if_pos hcur, pickCategory_keys m cur durs h]
    cases hfind : m.find? (fun p => durKeys.contains p.1 && p.2.contains cur) with
    | none => simp
    | some p =>
      have hpred := List.find?_some hfind
      rw [Bool.and_eq_true] at hpred
      have hmem : p.1 ∈ keysOf durs := by rw [h]; exact contains_mem hpred.1
      show sumDurations (durAdd durs p.1 d)
          + (if (some p.1 : Option String) = none then d else 0)
        = sumDurations durs + d
      rw [sumDurations_durAdd durs p.1 d hmem hnd]
      simp

theorem walk_conservation (m : StatusMappings) (close : ℚ) (ts : List Transition) :
    ∀ (cur : String) (start : ℚ) (durs : List (String × ℚ)), keysOf durs = durKeys →
      sumDurations (durWalk m close ts cur start durs) + unclWalk m close ts cur start
        = sumDurations durs + (close - start) := by
  induction ts with
  | nil =>
    intro cur start durs h
    show sumDurations (applyInterval m durs cur (qsub close start))
        + (if countedCategoryOf m cur = none then qsub close start else 0)
      = sumDurations durs + (close - start)
    rw [interval_step m durs cur (qsub close start) h, qsub_eq]
  | cons t rest ih =>
    intro cur start durs h
    show sumDurations (durWalk m close rest t.to_status t.changed
          (applyInterval m durs cur (qsub t.changed start)))
        + qadd (if countedCategoryOf m cur = none then qsub t.changed start else 0)
            (unclWalk m close rest t.to_status t.changed)
      = sumDurations durs + (close - start)
    have hkeys' : keysOf (applyInterval m durs cur (qsub t.changed start)) = durKeys := by
      rw [keysOf_applyInterval, h]
    have hih := ih t.to_status t.changed _ hkeys'
    have hstep := interval_step m durs cur (qsub t.changed start) h
    rw [qadd_eq]
    simp only [qsub_eq] at hih hstep ⊢
    by_cases hc : countedCategoryOf m cur = none
    · rw [if_pos hc] at hstep ⊢
      linarith [hih, hstep]
    · rw [if_neg hc] at hstep ⊢
      linarith [hih, hstep]

theorem findAux_split (sl : String) (pairs : List (String × String))
    (acc : ℚ × Option String) :
    findAux sl pairs acc =
      match pairs.find? (fun p => sl == pyLower p.2) with
      | some p => some p.1
      | none =>
        let a := pairs.foldl (scoreUpdate sl) acc
        if a.1 > mkRat 3 10 then a.2 else none := by
  induction pairs generalizing acc with
  | nil => rfl
  | cons p rest ih =>
    cases hb : (sl == pyLower p.2) with
    | true =>
      have hfind : List.find? (fun q => sl == pyLower q.2) (p :: rest) = some p :=
        List.find?_cons_of_pos _ hb
      simp only [findAux, hb, if_true, hfind]
    | false =>
      have hfind : List.find? (fun q => sl == pyLower q.2) (p :: rest)
          = List.find? (fun q => sl == pyLower q.2) rest := by
        rw [List.find?_cons_of_neg]
        simp [hb]
      simp only [findAux, hb, Bool.false_eq_true, if_false, hfind, List.foldl_cons]
      exact ih (scoreUpdate sl acc p)

/-! ## Claim theorems -/

/-- C8: for every status name and every map, the classifier returns
immediately on an exact case-insensitive match with any literal of any
category; otherwise it returns the best-scoring category over substring
containment (score min(len)/max(len)) and word overlap (score
|intersection| / max(|set1|,|set2|), overwriting the substring best only
when strictly greater — the shared `scoreUpdate` step) exactly when that
best score is strictly greater than 0.3, and no category otherwise:
the source classifier coincides with the spec's description. -/
theorem c8_find_best_status_match_spec (status : String) (m : StatusMappings) :
    find_best_status_match status m = spec_find_best_status_match status m := by
  unfold find_best_status_match spec_find_best_status_match
  exact findAux_split (pyLower status) (flatPairs m) (0, none)

theorem issueLeadTime_eq_stored (m : StatusMappings) (i : Issue) :
    issueLeadTime m i = issueLeadTimeStoredClaim m i := by
  unfold issueLeadTime issueLeadTimeStoredClaim
  rw [find?_eq_head?_filter, find?_reverse_eq]
  simp [qsub_eq]

/-- C1, counterexample: the source does not sort the transitions before
the scan.  On an issue whose stored transition order is not
`changed`-ascending the computed lead time (10 − 5 = 5, from the *first
stored* in-progress entry) differs from the claim's sorted-scan reading
(10 − 1 = 9, from the earliest in-progress entry). -/
theorem c1_counterexample :
    calculate_lead_times seedStatusMappings [c1Issue] = [5] ∧
      calculate_lead_times_sorted_claim seedStatusMappings [c1Issue] = [9] ∧
      calculate_lead_times seedStatusMappings [c1Issue] ≠
        calculate_lead_times_sorted_claim seedStatusMappings [c1Issue] := by
  refine ⟨by decide, by decide, by decide⟩

/-- C1, amended: the lead-time computation scans the transitions in their
stored order (not re-sorted): the start is the timestamp of the first
stored transition whose `to_status` classifies as in_progress, the end
the timestamp of the last stored one classifying as done, and the sample
end − start is kept iff both exist and it is strictly positive; every
returned lead time is > 0. -/
theorem c1_lead_time_stored_scan (m : StatusMappings) (df : List Issue) :
    calculate_lead_times m df = df.filterMap (issueLeadTimeStoredClaim m) ∧
      ∀ x ∈ calculate_lead_times m df, 0 < x := by
  constructor
  · have h : issueLeadTime m = issueLeadTimeStoredClaim m :=
      funext (issueLeadTime_eq_stored m)
    rw [calculate_lead_times, h]
  · intro x hx
    unfold calculate_lead_times at hx
    rw [List.mem_filterMap] at hx
    obtain ⟨i, _, hf⟩ := hx
    unfold issueLeadTime at hf
    dsimp only at hf
    split at hf
    · split at hf
      · rename_i hpos
        rw [Option.some_inj] at hf
        rw [← hf]
        exact hpos
      · exact absurd hf (by simp)
    · exact absurd hf (by simp)

/-- C1, witness: the amended theorem applied to the concrete frame
`[c1Issue]`, whose single lead-time sample 5 is strictly positive. -/
theorem c1_witness :
    calculate_lead_times seedStatusMappings [c1Issue] =
        List.filterMap (issueLeadTimeStoredClaim seedStatusMappings) [c1Issue] ∧
      (0 : ℚ) < 5 :=
  ⟨(c1_lead_time_stored_scan seedStatusMappings [c1Issue]).1,
   (c1_lead_time_stored_scan seedStatusMappings [c1Issue]).2 5 (by decide)⟩

/-- C2, counterexample: `analyze_issues` stores the augmented map back
into `self.status_mappings` (line 146), so after one run on a frame that
fuzzy-maps a new status ("development work" joins in_progress), the map
a subsequent call starts from is no longer the seed dictionary. -/
theorem c2_counterexample :
    stateAfterRuns [[discoveryIssue]] ≠ seedStatusMappings := by decide

/-- C2, amended: the fuzzy-matched discoveries are *not* discarded when a
run completes: the instance state starts at the seed, and the map used
at the start of each later call is the previous call's stored augmented
map — each run re-derives by augmenting that persisted map, not the
seed. -/
theorem c2_mappings_persist :
    stateAfterRuns [] = seedStatusMappings ∧
      ∀ (dfs : List (List Issue)) (df : List Issue),
        stateAfterRuns (dfs ++ [df]) = analyzeIssuesMappings (stateAfterRuns dfs) df := by
  refine ⟨rfl, ?_⟩
  intro dfs df
  simp [stateAfterRuns, List.foldl_append]

/-- C3, counterexample: with an empty Monte-Carlo input the `not
percentiles` early return fires *before* the `remaining_stories == 0`
check, so a zero remaining count yields 50, not the claimed
unconditional 100. -/
theorem c3_counterexample :
    calculate_monte_carlo_probability 0 none 2 = 50 ∧
      calculate_monte_carlo_probability 0 none 2 ≠ 100 := by
  refine ⟨by decide, by decide⟩

/-- C3, amended: with no percentile data the probability is 50 regardless
of the remaining count; with percentile data, a zero remaining count
gives 100, and otherwise the fixed ladder applies to the
multiplier-scaled percentiles: P90-scaled ≥ remaining → 90, else
P50-scaled ≥ remaining → 70, else P10-scaled ≥ remaining → 30,
else 10. -/
theorem c3_probability_ladder (r : ℤ) (ps : Percentiles) (mult : ℚ) :
    calculate_monte_carlo_probability r none mult = 50 ∧
      (r = 0 → calculate_monte_carlo_probability r (some ps) mult = 100) ∧
      (r ≠ 0 → ps.p90 * mult ≥ (r : ℚ) →
        calculate_monte_carlo_probability r (some ps) mult = 90) ∧
      (r ≠ 0 → ps.p90 * mult < (r : ℚ) → ps.p50 * mult ≥ (r : ℚ) →
        calculate_monte_carlo_probability r (some ps) mult = 70) ∧
      (r ≠ 0 → ps.p90 * mult < (r : ℚ) → ps.p50 * mult < (r : ℚ) →
        ps.p10 * mult ≥ (r : ℚ) →
        calculate_monte_carlo_probability r (some ps) mult = 30) ∧
      (r ≠ 0 → ps.p90 * mult < (r : ℚ) → ps.p50 * mult < (r : ℚ) →
        ps.p10 * mult < (r : ℚ) →
        calculate_monte_carlo_probability r (some ps) mult = 10) := by
  simp only [calculate_monte_carlo_probability, qmul_eq, qofInt_eq]
  refine ⟨trivial, ?_, ?_, ?_, ?_, ?_⟩
  · intro hr; rw [if_pos hr]
  · intro hr h90; rw [if_neg hr, if_pos h90]
  · intro hr h90 h50; rw [if_neg hr, if_neg (not_le.mpr h90), if_pos h50]
  · intro hr h90 h50 h10
    rw [if_neg hr, if_neg (not_le.mpr h90), if_neg (not_le.mpr h50), if_pos h10]
  · intro hr h90 h50 h10
    rw [if_neg hr, if_neg (not_le.mpr h90), if_neg (not_le.mpr h50),
      if_neg (not_le.mpr h10)]

/-- C3, witness: the amended theorem applied at a zero remaining count
with concrete percentiles. -/
theorem c3_witness :
    calculate_monte_carlo_probability 0
          (some { p10 := 1, p25 := 2, p50 := 3, p75 := 4, p90 := 5 }) 2 = 100 :=
  (c3_probability_ladder 0 { p10 := 1, p25 := 2, p50 := 3, p75 := 4, p90 := 5 } 2).2.1 rfl

/-- C4: for every issue whose transitions parse and sort (in the model,
all of them), the per-category durations plus the elapsed time of
unclassified intervals equal the elapsed time from the first sorted
transition's timestamp to the final-interval close (resolution date if
present, else now) — exactly, the rational model's form of
"within floating-point tolerance". -/
theorem c4_conservation (m : StatusMappings) (now : ℚ) (i : Issue) (t : Transition)
    (rest : List Transition) (h : sortByChanged i.status_transitions = t :: rest) :
    sumDurations (calculate_issue_status_durations m now i)
        + unclassifiedDuration m now i
      = intervalClose i.resolution_date now - t.changed := by
  unfold calculate_issue_status_durations unclassifiedDuration
  rw [h]
  have hw := walk_conservation m (intervalClose i.resolution_date now) rest
    t.to_status t.changed initDurations (by decide)
  have h0 : sumDurations initDurations = 0 := by decide
  rw [h0, zero_add] at hw
  exact hw

/-- C4, witness: conservation on the concrete issue `c4Issue` (now = 9):
in-progress 2 days plus 3 unclassified days equal resolution − first
transition. -/
theorem c4_witness :
    sortByChanged c4Issue.status_transitions
        = [{ from_status := "", to_status := "In Progress", changed := 0 },
           { from_status := "", to_status := "Banana", changed := 2 }] ∧
      sumDurations (calculate_issue_status_durations seedStatusMappings 9 c4Issue)
          + unclassifiedDuration seedStatusMappings 9 c4Issue
        = intervalClose c4Issue.resolution_date 9
            - Transition.changed { from_status := "", to_status := "In Progress", changed := 0 } :=
  ⟨by decide,
   c4_conservation seedStatusMappings 9 c4Issue
     { from_status := "", to_status := "In Progress", changed := 0 }
     [{ from_status := "", to_status := "Banana", changed := 2 }] (by decide)⟩

/-- C10: the per-issue status-duration result has exactly the four keys
in_progress, testing, waiting, validation — never a done entry — and an
interval whose status is classified as done (and under no counted
category, as in the seed map and every map the analyzer builds from it)
adds nothing to the durations, hence nothing to any per-category total
or to the per-issue total cycle time. -/
theorem c10_durations_exclude_done (m : StatusMappings) (now : ℚ) (i : Issue) :
    keysOf (calculate_issue_status_durations m now i) = durKeys ∧
      durContainsKey (calculate_issue_status_durations m now i) "done" = false ∧
      ∀ s, is_status_type m s "done" = true →
        (∀ p ∈ m, p.1 ∈ durKeys → s ∉ p.2) →
        ∀ (durs : List (String × ℚ)) (d : ℚ), keysOf durs = durKeys →
          applyInterval m durs s d = durs := by
  have hkeys : keysOf (calculate_issue_status_durations m now i) = durKeys := by
    unfold calculate_issue_status_durations
    cases hs : sortByChanged i.status_transitions with
    | nil => rfl
    | cons t rest => rw [keysOf_durWalk]; rfl
  refine ⟨hkeys, ?_, ?_⟩
  · rw [durContainsKey_eq_keys, hkeys]; decide
  · intro s _hdone hnotcounted durs d hk
    unfold applyInterval
    by_cases hcur : s = ""
    · rw [if_neg (by simp [hcur])]
    · rw [if_pos hcur]
      have hfind : m.find? (fun p => durContainsKey durs p.1 && p.2.contains s) = none := by
        apply List.find?_eq_none.mpr
        intro p hp hb
        rw [Bool.and_eq_true] at hb
        have h1 : p.1 ∈ durKeys := by
          rw [← hk]
          exact contains_mem (by rw [← durContainsKey_eq_keys]; exact hb.1)
        exact hnotcounted p hp h1 (contains_mem hb.2)
      have hpick : pickCategory durs m s = none := by rw [pickCategory, hfind]; rfl
      rw [hpick]

/-- C10, witness: the theorem at the seed map on the concrete issue, and
the done-exclusion applied to the literal "Done" status. -/
theorem c10_witness :
    keysOf (calculate_issue_status_durations seedStatusMappings 9 c4Issue) = durKeys ∧
      is_status_type seedStatusMappings "Done" "done" = true ∧
      applyInterval seedStatusMappings initDurations "Done" 7 = initDurations :=
  ⟨(c10_durations_exclude_done seedStatusMappings 9 c4Issue).1,
   by decide,
   (c10_durations_exclude_done seedStatusMappings 9 c4Issue).2.2 "Done" (by decide)
     (by decide) initDurations 7 (by decide)⟩

/-- C5, counterexample: on a non-empty frame whose first valid created
date is timezone-naive the source cutoff is the *naive* now minus N
months, not the claimed UTC fallback. -/
theorem c5_counterexample :
    get_timezone_aware_cutoff_date (fun _ => 0) [some { val := 0, tz := none }]
        = { val := 0, tz := none } ∧
      cutoff_date_claim (fun _ => 0) [some { val := 0, tz := none }]
        = { val := 0, tz := some "UTC" } ∧
      get_timezone_aware_cutoff_date (fun _ => 0) [some { val := 0, tz := none }]
        ≠ cutoff_date_claim (fun _ => 0) [some { val := 0, tz := none }] := by
  refine ⟨by decide, by decide, by decide⟩

/-- C5, amended: the batch filter keeps exactly the issues with a present
created date ≥ cutoff; the cutoff is now − N months in the timezone of
the dataset's first valid created date when that date is timezone-aware,
the timezone-naive now − N months when the first valid created date is
naive or missing, and UTC only for an empty frame. -/
theorem c5_cutoff_and_filter (nowMinus : Option String → ℚ) (df : List Issue) :
    (df.isEmpty = true →
      get_timezone_aware_cutoff_date nowMinus (df.map Issue.created)
        = { val := nowMinus (some "UTC"), tz := some "UTC" }) ∧
      (∀ t z, ((df.map Issue.created).filterMap id).head? = some t → t.tz = some z →
        get_timezone_aware_cutoff_date nowMinus (df.map Issue.created)
          = { val := nowMinus (some z), tz := some z }) ∧
      (∀ t, ((df.map Issue.created).filterMap id).head? = some t → t.tz = none →
        get_timezone_aware_cutoff_date nowMinus (df.map Issue.created)
          = { val := nowMinus none, tz := none }) ∧
      (df.isEmpty = false → ((df.map Issue.created).filterMap id).head? = none →
        get_timezone_aware_cutoff_date nowMinus (df.map Issue.created)
          = { val := nowMinus none, tz := none }) ∧
      (∀ cutoff : PTimestamp, ∀ i,
        i ∈ filterByCutoff df cutoff ↔
          i ∈ df ∧ ∃ tt, i.created = some tt ∧ cutoff.val ≤ tt.val) := by
  have hise : (df.map Issue.created).isEmpty = df.isEmpty := by
    cases df <;> rfl
  refine ⟨?_, ?_, ?_, ?_, ?_⟩
  · intro h
    unfold get_timezone_aware_cutoff_date
    rw [if_pos (by rw [hise, h])]
  · intro t z hh htz
    unfold get_timezone_aware_cutoff_date
    have hne : (df.map Issue.created).isEmpty = false := by
      cases hc : df.map Issue.created with
      | nil => rw [hc] at hh; simp at hh
      | cons a l => rfl
    rw [if_neg (by simp [hne]), hh]
    dsimp only
    rw [htz]
  · intro t hh htz
    unfold get_timezone_aware_cutoff_date
    have hne : (df.map Issue.created).isEmpty = false := by
      cases hc : df.map Issue.created with
      | nil => rw [hc] at hh; simp at hh
      | cons a l => rfl
    rw [if_neg (by simp [hne]), hh]
    dsimp only
    rw [htz]
  · intro h hh
    unfold get_timezone_aware_cutoff_date
    rw [if_neg (by simp [hise, h]), hh]
  · intro cutoff i
    unfold filterByCutoff
    rw [List.mem_filter]
    constructor
    · rintro ⟨hmem, hp⟩
      refine ⟨hmem, ?_⟩
      cases hc : i.created with
      | none => rw [hc] at hp; simp at hp
      | some tt =>
        rw [hc] at hp
        exact ⟨tt, rfl, by simpa using hp⟩
    · rintro ⟨hmem, tt, hc, hle⟩
      exact ⟨hmem, by rw [hc]; simpa using hle⟩

/-- C5, witness: the amended theorem's timezone-aware branch on a concrete
one-issue frame carrying tz "Europe/Rome". -/
theorem c5_witness :
    get_timezone_aware_cutoff_date (fun _ => 1)
        (List.map Issue.created
          [{ key := "K", current_status := "Open",
             created := some { val := 3, tz := some "Europe/Rome" },
             resolution_date := none, status_transitions := [] }])
      = { val := 1, tz := some "Europe/Rome" } :=
  (c5_cutoff_and_filter (fun _ => 1)
      [{ key := "K", current_status := "Open",
         created := some { val := 3, tz := some "Europe/Rome" },
         resolution_date := none, status_transitions := [] }]).2.1
    { val := 3, tz := some "Europe/Rome" } "Europe/Rome" (by decide) (by decide)

/-- C6, counterexample: the summarizer applied to the empty collection
returns the empty dict — an object with *no* `count` entry, so
`count == 0` does not hold of the result. -/
theorem c6_counterexample :
    fit_gaussian_distribution id (fun _ => none) [] = none ∧
      (fit_gaussian_distribution id (fun _ => none) []).map FitResult.count ≠ some 0 := by
  refine ⟨rfl, by decide⟩

/-- C6, amended: the statistics summarizer applied to the empty collection
returns, without raising, the empty result object (the `{}` of line 558),
which carries no fields at all — in particular no count. -/
theorem c6_empty_summary (sqrtQ : ℚ → ℚ) (shapiro : List ℚ → Option ℚ) :
    fit_gaussian_distribution sqrtQ shapiro [] = none := rfl

theorem mkRat_one_twenty : (mkRat 1 20 : ℚ) = 1 / 20 := by
  norm_num [Rat.mkRat_eq_div]

theorem isNormal_true_iff (p : Option ℚ) :
    ((match p with
        | some v => if v ≠ 0 then some (decide (v > mkRat 1 20)) else none
        | none => none) = some true)
      ↔ ∃ v, p = some v ∧ v > 1 / 20 := by
  cases p with
  | none => simp
  | some v =>
    by_cases h0 : v = 0
    · subst h0
      constructor
      · intro hcontra
        exact absurd hcontra (by simp)
      · rintro ⟨u, hu, hgt⟩
        rw [Option.some_inj] at hu
        rw [← hu] at hgt
        norm_num at hgt
    · simp [h0, mkRat_one_twenty]

theorem isNormal_false_of (v : ℚ) (h0 : v ≠ 0) (hle : ¬ v > 1 / 20) :
    (match some v with
      | some v => if v ≠ 0 then some (decide (v > mkRat 1 20)) else none
      | none => none) = some false := by
  simp [h0, mkRat_one_twenty]
  simpa using not_lt.mp hle

theorem isNormal_of_none :
    (match (none : Option ℚ) with
      | some v => if v ≠ 0 then some (decide (v > mkRat 1 20)) else none
      | none => none) = none := rfl

theorem isNormal_of_zero :
    (match (some (0 : ℚ)) with
      | some v => if v ≠ 0 then some (decide (v > mkRat 1 20)) else none
      | none => none) = none := by
  simp

/-- C7, counterexample: on the four-point sample with a p-value of
1/25 = 0.04 (which exists and is ≤ 0.05) the summarizer's `is_normal` is
`False`, not null — Python's `p_value > 0.05 if p_value else None`
yields `None` only when the p-value is absent or exactly 0.0. -/
theorem c7_counterexample :
    (fit_gaussian_distribution id (fun _ => some (mkRat 1 25)) [1, 2, 3, 4]).map
        FitResult.is_normal = some (some false) ∧
      (fit_gaussian_distribution id (fun _ => some (mkRat 1 25)) [1, 2, 3, 4]).map
        FitResult.normality_test_p_value = some (some (mkRat 1 25)) ∧
      mkRat 1 25 ≤ mkRat 1 20 ∧ (some false : Option Bool) ≠ none := by
  refine ⟨by decide, by decide, by decide, by decide⟩

/-- C7, amended: for non-empty data the summarizer computes a p-value
exactly when the sample count exceeds 3; `is_normal` is true iff a
p-value exists and is > 0.05, it is *False* (not null) when a p-value
exists with 0 < p ≤ 0.05, and it is null when the p-value is absent or
exactly 0.0 (Python truthiness of the float). -/
theorem c7_is_normal_semantics (sqrtQ : ℚ → ℚ) (shapiro : List ℚ → Option ℚ)
    (data : List ℚ) (h : data ≠ []) :
    ∃ r, fit_gaussian_distribution sqrtQ shapiro data = some r ∧
      r.count = data.length ∧
      r.normality_test_p_value = (if 3 < data.length then shapiro data else none) ∧
      (r.is_normal = some true ↔
        ∃ v, r.normality_test_p_value = some v ∧ v > 1 / 20) ∧
      (∀ v, r.normality_test_p_value = some v → v ≠ 0 → ¬ v > 1 / 20 →
        r.is_normal = some false) ∧
      ((r.normality_test_p_value = none ∨ r.normality_test_p_value = some 0) →
        r.is_normal = none) := by
  have hne : data.isEmpty = false := by
    cases data with
    | nil => exact absurd rfl h
    | cons a l => rfl
  unfold fit_gaussian_distribution
  rw [if_neg (by simp [hne])]
  dsimp only
  refine ⟨_, rfl, rfl, rfl, ?_, ?_, ?_⟩
  · exact isNormal_true_iff (if 3 < data.length then shapiro data else none)
  · intro v hv h0 hle
    rw [show (if 3 < data.length then shapiro data else none) = some v from hv]
    exact isNormal_false_of v h0 hle
  · intro hcase
    rcases hcase with hc | hc
    · rw [show (if 3 < data.length then shapiro data else none) = none from hc]
    · rw [show (if 3 < data.length then shapiro data else none) = some 0 from hc]
      exact isNormal_of_zero

theorem riskIteCases (P Q : Prop) [Decidable P] [Decidable Q] :
    (if P then "HIGH" else if Q then "MEDIUM" else "LOW") = "LOW" ∨
      (if P then "HIGH" else if Q then "MEDIUM" else "LOW") = "MEDIUM" ∨
      (if P then "HIGH" else if Q then "MEDIUM" else "LOW") = "HIGH" := by
  by_cases hp : P
  · right; right; rw [if_pos hp]
  · by_cases hq : Q
    · right; left; rw [if_neg hp, if_pos hq]
    · left; rw [if_neg hp, if_neg hq]

theorem risk_level_cases (a b c : ℚ) (w : Workload) :
    calculate_risk_level a b c w = "LOW" ∨ calculate_risk_level a b c w = "MEDIUM" ∨
      calculate_risk_level a b c w = "HIGH" := by
  unfold calculate_risk_level
  dsimp only
  exact riskIteCases _ _

/-- C9: forecasting with zero historical velocity samples raises no
exception and performs no division by zero (given a non-zero configured
team capacity): the historical-velocity dict is all zero/empty, the
forecast succeeds with the fixed optimistic fallback probability 70 of
the team-capacity branch, estimates derived from team_size ×
hours_per_day capacity, and a computed LOW/MEDIUM/HIGH risk level. -/
theorem c9_zero_history_forecast (team_size hours_per_day : ℚ)
    (completion_statuses : List String) (fmt1 : ℚ → String) (today : ℤ)
    (parseDate : String → Option ℤ) (w : Workload) (sd : SprintDetails)
    (weekKey : String → Option String) (simulate : List ℕ → MonteCarloResult)
    (h : qmul team_size hours_per_day ≠ 0) :
    calculate_historical_velocity weekKey simulate completion_statuses [] =
        { average_velocity := 0, velocity_variance := 0, completion_rate := 0,
          total_historical_issues := 0, monte_carlo_forecast := none,
          estimate_accuracy := none, weekly_story_counts := [] } ∧
      ∃ f, generate_forecast_with_dates team_size hours_per_day completion_statuses
            fmt1 today parseDate w
            (calculate_historical_velocity weekKey simulate completion_statuses []) sd
          = Except.ok f ∧
        f.probability_of_completion = 70 ∧
        (f.risk_level = "LOW" ∨ f.risk_level = "MEDIUM" ∨ f.risk_level = "HIGH") ∧
        f.estimated_days_needed
            = w.total_remaining_estimate / (team_size * hours_per_day) ∧
        f.estimated_weeks_needed
            = w.total_remaining_estimate / (team_size * hours_per_day * 5) ∧
        f.adjusted_hours_estimate = w.total_remaining_estimate ∧
        f.monte_carlo_scenarios = none ∧
        f.remaining_days = w.total_remaining_estimate / 8 := by
  have h5 : qmul (qmul team_size hours_per_day) 5 ≠ 0 := by
    have h' : team_size * hours_per_day ≠ 0 := by rw [← qmul_eq]; exact h
    simp only [qmul_eq]
    exact mul_ne_zero h' (by norm_num)
  have h8 : (8 : ℚ) ≠ 0 := by norm_num
  refine ⟨rfl, ?_⟩
  unfold generate_forecast_with_dates
  simp only [calculate_historical_velocity, List.isEmpty_nil, ite_true, Bind.bind,
    Except.bind, pydivE, h5, h, h8, if_false, ite_false, Option.isSome_none,
    lt_self_iff_false, false_and, and_false, gt_iff_lt, pure, Except.pure]
  refine ⟨_, rfl, rfl, risk_level_cases _ _ _ _, ?_, ?_, rfl, rfl, ?_⟩
  · dsimp only
    rw [qdiv_eq, qmul_eq]
  · dsimp only
    rw [qdiv_eq]
    simp only [qmul_eq]
  · dsimp only
    rw [qdiv_eq]

/-- C7, witness: the amended theorem applied to the concrete sample
`[1, 2, 3, 4]` with a shapiro stub returning p = 1/2. -/
theorem c7_witness :
    ([1, 2, 3, 4] : List ℚ) ≠ [] ∧
      ∃ r, fit_gaussian_distribution id (fun _ => some (1 / 2)) [1, 2, 3, 4] = some r ∧
        r.count = ([1, 2, 3, 4] : List ℚ).length ∧
        r.normality_test_p_value
            = (if 3 < ([1, 2, 3, 4] : List ℚ).length then some ((1 : ℚ) / 2) else none) ∧
        (r.is_normal = some true ↔
          ∃ v, r.normality_test_p_value = some v ∧ v > 1 / 20) ∧
        (∀ v, r.normality_test_p_value = some v → v ≠ 0 → ¬ v > 1 / 20 →
          r.is_normal = some false) ∧
        ((r.normality_test_p_value = none ∨ r.normality_test_p_value = some 0) →
          r.is_normal = none) :=
  ⟨by decide, c7_is_normal_semantics id (fun _ => some (1 / 2)) [1, 2, 3, 4] (by decide)⟩

/-- C9, witness: the zero-history forecast theorem at the default
configured capacity (8 people × 8 h/day) on a concrete workload. -/
theorem c9_witness :
    qmul (8 : ℚ) 8 ≠ 0 ∧
      (calculate_historical_velocity (fun _ => none) c9Simulate ["Done", "Closed"] [] =
          { average_velocity := 0, velocity_variance := 0, completion_rate := 0,
            total_historical_issues := 0, monte_carlo_forecast := none,
            estimate_accuracy := none, weekly_story_counts := [] } ∧
        ∃ f, generate_forecast_with_dates 8 8 ["Done", "Closed"] (fun _ => "") 0
              (fun _ => none) c9Workload
              (calculate_historical_velocity (fun _ => none) c9Simulate
                ["Done", "Closed"] [])
              { end_date := none }
            = Except.ok f ∧
          f.probability_of_completion = 70 ∧
          (f.risk_level = "LOW" ∨ f.risk_level = "MEDIUM" ∨ f.risk_level = "HIGH") ∧
          f.estimated_days_needed
              = c9Workload.total_remaining_estimate / ((8 : ℚ) * 8) ∧
          f.estimated_weeks_needed
              = c9Workload.total_remaining_estimate / ((8 : ℚ) * 8 * 5) ∧
          f.adjusted_hours_estimate = c9Workload.total_remaining_estimate ∧
          f.monte_carlo_scenarios = none ∧
          f.remaining_days = c9Workload.total_remaining_estimate / 8) :=
  ⟨by decide,
   c9_zero_history_forecast 8 8 ["Done", "Closed"] (fun _ => "") 0 (fun _ => none)
     c9Workload { end_date := none } (fun _ => none) c9Simulate (by decide)⟩
